import Mathlib

/- Shallow embedding of `src/news_sentiment_app.py` (a Streamlit news
   sentiment dashboard).

   Conventions of the embedding:
   - Python/JSON values are modelled by `JVal`; Python floats are modelled
     as exact rationals; `datetime` values by `PyDateTime`, `date` values
     by `PyDate`.
   - The external TextBlob polarity scorer is an opaque parameter
     `score : String -> Rat`.
   - Exceptions are explicit.  Inside the per-record loop, an exception
     that the handler `except (KeyError, ValueError, TypeError)` catches
     becomes `Outcome.skipWarn` (the record is dropped with a warning); an
     exception outside the tuple (an `AttributeError` from calling `.get`
     on a non-dict) becomes `Outcome.crash` and aborts the whole call. -/

/-- A parsed JSON value / the Python objects the pipeline manipulates. -/
inductive JVal where
  | null
  | bool (b : Bool)
  | num (q : ℚ)
  | str (s : String)
  | arr (elems : List JVal)
  | obj (fields : List (String × JVal))

/-- Python `d.get(k, default)` on a dict modelled as an association list
    (first binding wins; Python dict keys are unique). -/
def dictGet (fs : List (String × JVal)) (k : String) (d : JVal) : JVal :=
  match fs.lookup k with
  | some v => v
  | none => d

/-- Python truthiness (`bool(v)`) for JSON-shaped values. -/
def truthy : JVal → Bool
  | .null => false
  | .bool b => b
  | .num q => decide (q ≠ 0)
  | .str s => decide (s ≠ "")
  | .arr xs => !xs.isEmpty
  | .obj fs => !fs.isEmpty

/-- Lines 27-33: `get_sentiment_label` converts a numerical sentiment
    score into a readable label. -/
def get_sentiment_label (score : ℚ) : String :=
  if score > 1/10 then "😊 Positive"
  else if score < -(1/10) then "😠 Negative"
  else "😐 Neutral"

/-- Value of a decimal digit character, `none` if not a digit. -/
def digitVal (c : Char) : Option ℕ :=
  if c.isDigit then some (c.toNat - 48) else none

/-- Exactly four digits (the `%Y` directive). -/
def parse4 : List Char → Option (ℕ × List Char)
  | a :: b :: c :: d :: rest => do
    let x ← digitVal a
    let y ← digitVal b
    let z ← digitVal c
    let w ← digitVal d
    pure (1000 * x + 100 * y + 10 * z + w, rest)
  | _ => none

/-- One or two digits, greedily (the `%m`, `%d`, `%H`, `%M`, `%S`
    directives).  Greediness agrees with the CPython regex because every
    following literal is a non-digit. -/
def parse2 : List Char → Option (ℕ × List Char)
  | [] => none
  | a :: rest =>
    match digitVal a, rest with
    | none, _ => none
    | some x, [] => some (x, [])
    | some x, b :: rest2 =>
      match digitVal b with
      | some y => some (10 * x + y, rest2)
      | none => some (x, b :: rest2)

/-- One literal character of the format.  CPython `strptime` compiles its
    pattern with `re.IGNORECASE`, so either case of a letter is accepted. -/
def expectLit (c : Char) : List Char → Option (List Char)
  | x :: rest => if x = c ∨ x = c.toLower then some rest else none
  | [] => none

/-- Proleptic Gregorian leap year. -/
def isLeap (y : ℕ) : Bool := decide ((y % 4 = 0 ∧ y % 100 ≠ 0) ∨ y % 400 = 0)

def daysInMonth (y m : ℕ) : ℕ :=
  if m = 2 then (if isLeap y then 29 else 28)
  else if m = 4 ∨ m = 6 ∨ m = 9 ∨ m = 11 then 30
  else 31

/-- A Python `datetime` value (naive, second precision, as produced by
    parsing the fixed format). -/
structure PyDateTime where
  year : ℕ
  month : ℕ
  day : ℕ
  hour : ℕ
  minute : ℕ
  second : ℕ
deriving DecidableEq

/-- Line 88: `datetime.strptime(date_str, "%Y-%m-%dT%H:%M:%SZ")`.
    `%Y` is exactly four digits, the other numeric directives accept one
    or two digits, the whole string must be consumed, and the parsed
    fields must form a valid `datetime` (otherwise `ValueError`). -/
def parseTimestamp (s : String) : Option PyDateTime := do
  let cs := s.toList
  let (y, cs) ← parse4 cs
  let cs ← expectLit '-' cs
  let (mo, cs) ← parse2 cs
  let cs ← expectLit '-' cs
  let (d, cs) ← parse2 cs
  let cs ← expectLit 'T' cs
  let (h, cs) ← parse2 cs
  let cs ← expectLit ':' cs
  let (mi, cs) ← parse2 cs
  let cs ← expectLit ':' cs
  let (sec, cs) ← parse2 cs
  let cs ← expectLit 'Z' cs
  if cs.isEmpty ∧ 1 ≤ y ∧ y ≤ 9999 ∧ 1 ≤ mo ∧ mo ≤ 12 ∧ 1 ≤ d ∧
      d ≤ daysInMonth y mo ∧ h ≤ 23 ∧ mi ≤ 59 ∧ sec ≤ 59 then
    pure ⟨y, mo, d, h, mi, sec⟩
  else none

/-- One processed article, the dict appended at lines 106-114. -/
structure Processed where
  title : String
  description : String
  date : PyDateTime
  polarity : ℚ
  sentiment_label : String
  source : JVal
  source_url : JVal

/-- Result of one iteration of the loop body of `process_articles`. -/
inductive Outcome where
  | ok (p : Processed)
  | skipSilent
  | skipWarn
  | crash

def Outcome.toOption : Outcome → Option Processed
  | .ok p => some p
  | _ => none

/-- An uncaught Python exception escaping the modelled code. -/
inductive PyErr where
  | attributeError
  | keyError
deriving DecidableEq

/-- Lines 90-95: convert a `None` field to the empty string, keep any
    other value unchanged. -/
def noneToEmpty : JVal → JVal
  | .null => .str ""
  | v => v

/-- Lines 90-114, reached once the timestamp has parsed: normalize
    `description` and `url`, concatenate title and description (raising a
    `TypeError`, caught by the handler, unless both are strings), score
    the text, and build the record. -/
def buildStage (score : String → ℚ) (fs sfs : List (String × JVal))
    (title : JVal) (dt : PyDateTime) : Outcome :=
  match title, noneToEmpty (dictGet fs "description" (.str "")) with
  | .str t, .str d =>
    .ok { title := t
        , description := d
        , date := dt
        , polarity := score (t ++ " " ++ d)
        , sentiment_label := get_sentiment_label (score (t ++ " " ++ d))
        , source := dictGet sfs "name" (.str "Unknown")
        , source_url := noneToEmpty (dictGet fs "url" (.str "")) }
  | _, _ => .skipWarn

/-- Lines 87-88: `strptime` raises a caught `TypeError` on a non-string
    argument and a caught `ValueError` on a parse failure. -/
def parseStage (score : String → ℚ) (fs sfs : List (String × JVal))
    (title date_str : JVal) : Outcome :=
  match date_str with
  | .str ds =>
    match parseTimestamp ds with
    | some dt => buildStage score fs sfs title dt
    | none => .skipWarn
  | _ => .skipWarn

/-- Lines 77-114 for a dict article whose `source` value resolved to the
    dict `sfs`: field extraction, the line 84-85 skip on a falsy title or
    date, then parsing and record construction. -/
def processFields (score : String → ℚ) (fs sfs : List (String × JVal)) : Outcome :=
  let title := dictGet fs "title" .null
  let date_str := dictGet fs "publishedAt" .null
  if truthy title && truthy date_str then
    parseStage score fs sfs title date_str
  else .skipSilent

/-- One iteration of the loop body (lines 76-118).  `article.get` on a
    non-dict raises `AttributeError` (line 77), and so does
    `article.get("source", default).get("name", default)` at line 80 when
    the `source` value is present but not a dict; `AttributeError` is not
    in the `except` tuple, so these are `crash`, not skips. -/
def processRecord (score : String → ℚ) (article : JVal) : Outcome :=
  match article with
  | .obj fs =>
    match dictGet fs "source" (.obj []) with
    | .obj sfs => processFields score fs sfs
    | _ => .crash
  | _ => .crash

/-- Lines 73-119: the whole loop.  A caught per-record error or the
    line-85 `continue` drops the record and processing continues; an
    uncaught exception aborts the whole call. -/
def process_articles (score : String → ℚ) : List JVal → Except PyErr (List Processed)
  | [] => .ok []
  | a :: rest =>
    match processRecord score a with
    | .ok p =>
      match process_articles score rest with
      | .ok out => .ok (p :: out)
      | .error e => .error e
    | .skipSilent => process_articles score rest
    | .skipWarn => process_articles score rest
    | .crash => .error .attributeError

/-- The provider's reply, per its contract: an HTTP status and a JSON
    object body whose `articles` value, when present, is a list. -/
structure ProviderResponse where
  status : ℕ
  articles : Option (List JVal)

/-- Lines 51-65: on HTTP 200 return the body's `articles` list (empty
    list if the key is missing); on any other status show `st.error`
    (first component `true`) and return the empty list. -/
def fetch_articles (query : String) (limit : ℕ) (resp : ProviderResponse) :
    Bool × List JVal :=
  if resp.status = 200 then (false, resp.articles.getD [])
  else (true, [])

/-- A Python `date` value. -/
structure PyDate where
  year : ℕ
  month : ℕ
  day : ℕ
deriving DecidableEq

/-- `datetime.date()`: drop the time of day. -/
def dateOf (dt : PyDateTime) : PyDate := ⟨dt.year, dt.month, dt.day⟩

/-- CPython `_days_before_year`: days before January 1st of `year` in the
    proleptic Gregorian calendar. -/
def daysBeforeYear (year : ℕ) : ℕ :=
  365 * (year - 1) + (year - 1) / 4 + (year - 1) / 400 - (year - 1) / 100

def daysBeforeMonth (y m : ℕ) : ℕ :=
  ((List.range (m - 1)).map (fun i => daysInMonth y (i + 1))).sum

/-- `date.toordinal()`: 0001-01-01 has ordinal 1. -/
def toOrdinal (d : PyDate) : ℕ :=
  daysBeforeYear d.year + daysBeforeMonth d.year d.month + d.day

/-- `date.weekday()` of the date with the given ordinal: Monday is 0, and
    the ordinal-1 date 0001-01-01 is a Monday. -/
def weekdayOfOrd (o : ℕ) : ℕ := (o + 6) % 7

/-- Line 131: `start_of_week = today - timedelta(days = today.weekday())`,
    expressed as an ordinal.  Comparison of (always-valid) Python dates
    coincides with comparison of their ordinals. -/
def startOfWeekOrd (today : PyDate) : ℕ :=
  toOrdinal today - weekdayOfOrd (toOrdinal today)

/-- Line 134: articles whose publish date equals today (Python `==` on
    `date` objects is structural). -/
def today_articles (parsed : List Processed) (today : PyDate) : List Processed :=
  parsed.filter (fun a => decide (dateOf a.date = today))

/-- Line 135: articles with `start_of_week <= date <= today`. -/
def week_articles (parsed : List Processed) (today : PyDate) : List Processed :=
  parsed.filter (fun a =>
    decide (startOfWeekOrd today ≤ toOrdinal (dateOf a.date)) &&
    decide (toOrdinal (dateOf a.date) ≤ toOrdinal today))

/-- Line 136: the All Time tab shows every processed article. -/
def all_articles (parsed : List Processed) : List Processed := parsed

/-- Rational floor (Python float arithmetic is modelled exactly). -/
def floorQ (q : ℚ) : ℤ := Int.fdiv q.num q.den

/-- Python `round(x)` for a nonnegative number of decimals: round half to
    even.  This is the integer case. -/
def roundHalfEven (q : ℚ) : ℤ :=
  let f := floorQ q
  if q - (f : ℚ) < 1/2 then f
  else if (1 : ℚ)/2 < q - (f : ℚ) then f + 1
  else if f % 2 = 0 then f else f + 1

/-- Python `round(x, 2)`. -/
def round2 (q : ℚ) : ℚ := (roundHalfEven (100 * q) : ℚ) / 100

/-- `Series.mean()`: sum over length. -/
def mean (l : List ℚ) : ℚ := l.sum / l.length

/-- Line 143: `round(df["polarity"].mean(), 2) if not df.empty else 0.0`,
    the value handed to `st.metric`. -/
def avgMetric (parsed : List Processed) : ℚ :=
  if parsed.isEmpty then 0
  else round2 (mean (parsed.map Processed.polarity))

/-- Columns of `pd.DataFrame(parsed_articles)`: the union of the record
    keys, which is empty for an empty record list. -/
def dfColumns (parsed : List Processed) : List String :=
  if parsed.isEmpty then []
  else ["title", "description", "date", "polarity", "sentiment_label",
        "source", "source_url"]

/-- The column list selected at line 159 for the table view. -/
def displayColumns : List String := ["title", "sentiment_label", "polarity", "source"]

/-- What the presentation layer receives when rendering succeeds. -/
structure Dashboard where
  avgPolarity : ℚ
  articleCount : ℕ
  tableColumns : List String
  todayNotice : Bool
  weekNotice : Bool
  allNotice : Bool

/-- Lines 140-236: the metrics, the table selection
    `df[["title", "sentiment_label", "polarity", "source"]]` (line 159,
    which raises `KeyError` when a requested column is missing, as on an
    empty frame), and the three tab listings (`display_articles` shows the
    "No articles found for this period." notice exactly when its list is
    empty). -/
def renderDashboard (parsed : List Processed) (today : PyDate) :
    Except PyErr Dashboard :=
  if displayColumns.all (fun c => (dfColumns parsed).contains c) then
    .ok { avgPolarity := avgMetric parsed
        , articleCount := parsed.length
        , tableColumns := displayColumns
        , todayNotice := (today_articles parsed today).isEmpty
        , weekNotice := (week_articles parsed today).isEmpty
        , allNotice := (all_articles parsed).isEmpty }
  else .error .keyError

/-- Source field shapes on which line 80 cannot raise: the key is absent
    or its value is a dict. -/
def okSourceType : Option JVal → Bool
  | none => true
  | some (.obj _) => true
  | _ => false

/-- Articles on which the loop body raises no uncaught exception: dict
    records whose `source` value, when present, is itself a dict. -/
def isSafe : JVal → Bool
  | .obj fs => okSourceType (fs.lookup "source")
  | _ => false

/-- Field is absent, `null`, or a string. -/
def okFieldType : Option JVal → Bool
  | none => true
  | some .null => true
  | some (.str _) => true
  | _ => false

/-- Records whose relevant fields carry no type surprises: `title`,
    `publishedAt` and `description` absent, null or strings, and `source`
    absent or a dict. -/
def wellTyped : JVal → Bool
  | .obj fs =>
    okFieldType (fs.lookup "title") && okFieldType (fs.lookup "publishedAt") &&
    okFieldType (fs.lookup "description") && okSourceType (fs.lookup "source")
  | _ => false

/-- Title missing or empty, in the sense of the discard conditions:
    absent, null, or the empty string. -/
def titleMissing : Option JVal → Bool
  | none => true
  | some .null => true
  | some (.str "") => true
  | _ => false

/-- Publish timestamp missing or failing to parse against the fixed
    format. -/
def dateBad : Option JVal → Bool
  | none => true
  | some .null => true
  | some (.str s) => (parseTimestamp s).isNone
  | _ => true

/-- The discard set named by the specification: missing or empty title,
    or missing/unparseable publish timestamp. -/
def discardedByClaim : JVal → Bool
  | .obj fs => titleMissing (fs.lookup "title") || dateBad (fs.lookup "publishedAt")
  | _ => true

/-- A concrete stand-in for the external scorer, used in closed examples. -/
def zeroScore : String → ℚ := fun _ => 0

/-- A raw article with a present, non-empty title and a parseable
    timestamp, but a numeric `description`: the concatenation at line 98
    raises a caught `TypeError` and the record is dropped. -/
def artC4 : JVal :=
  JVal.obj [("title", JVal.str "A"),
            ("publishedAt", JVal.str "2024-01-01T00:00:00Z"),
            ("description", JVal.num 5)]

/-- A fully well-typed raw article that the normalizer keeps. -/
def artC4b : JVal :=
  JVal.obj [("title", JVal.str "Good"),
            ("publishedAt", JVal.str "2024-03-05T10:00:00Z")]

/-- A raw article whose `source` key is present but maps to null: line 80
    then raises an uncaught `AttributeError`. -/
def artC8 : JVal :=
  JVal.obj [("title", JVal.str "A"),
            ("publishedAt", JVal.str "2024-01-01T00:00:00Z"),
            ("source", JVal.null)]

/-- Same failure shape as `artC8`, with a different record. -/
def artC10 : JVal :=
  JVal.obj [("title", JVal.str "T"),
            ("publishedAt", JVal.str "2024-02-02T00:00:00Z"),
            ("source", JVal.null)]

/-- The raw-article shape of the spec's well-formed example. -/
def artC8w : List (String × JVal) :=
  [("title", JVal.str "A"),
   ("description", JVal.null),
   ("publishedAt", JVal.str "2024-01-01T00:00:00Z")]

/-- A processed article with polarity 0.111, whose two-decimal rounding
    differs from the exact mean. -/
def artC9 : Processed :=
  ⟨"Quiet day", "markets drift", ⟨2024, 6, 1, 12, 0, 0⟩, 111/1000,
   get_sentiment_label (111/1000), JVal.str "Wire", JVal.str ""⟩

/-- A current local date used in bucket examples (2026-10-14, a
    Wednesday). -/
def dayC6 : PyDate := ⟨2026, 10, 14⟩

/-- A processed article published on `dayC6`. -/
def artC6 : Processed :=
  ⟨"Sample", "", ⟨2026, 10, 14, 9, 30, 0⟩, 0, get_sentiment_label 0,
   JVal.str "Wire", JVal.str ""⟩

/- ------------------------------------------------------------------ -/
/- Helper lemmas about the embedded pipeline.                          -/
/- ------------------------------------------------------------------ -/

lemma parseTimestamp_ne_empty {s : String} {dt : PyDateTime}
    (h : parseTimestamp s = some dt) : s ≠ "" := by
  intro he
  subst he
  exact Option.noConfusion h

lemma truthy_str {s : String} (h : s ≠ "") : truthy (JVal.str s) = true := by
  simp [truthy, h]

lemma str_of_truthy {s : String} (h : truthy (JVal.str s) = true) : s ≠ "" := by
  simpa [truthy] using h

lemma processRecord_obj (score : String → ℚ) (fs : List (String × JVal)) :
    processRecord score (JVal.obj fs) =
      match dictGet fs "source" (JVal.obj []) with
      | JVal.obj sfs => processFields score fs sfs
      | _ => Outcome.crash := rfl

lemma buildStage_ne_crash (score : String → ℚ) (fs sfs : List (String × JVal))
    (title : JVal) (dt : PyDateTime) :
    buildStage score fs sfs title dt ≠ Outcome.crash := by
  intro h
  unfold buildStage at h
  split at h <;> exact Outcome.noConfusion h

lemma parseStage_ne_crash (score : String → ℚ) (fs sfs : List (String × JVal))
    (title date_str : JVal) :
    parseStage score fs sfs title date_str ≠ Outcome.crash := by
  intro h
  unfold parseStage at h
  split at h
  · split at h
    · exact buildStage_ne_crash _ _ _ _ _ h
    · exact Outcome.noConfusion h
  · exact Outcome.noConfusion h

lemma processFields_ne_crash (score : String → ℚ) (fs sfs : List (String × JVal)) :
    processFields score fs sfs ≠ Outcome.crash := by
  intro h
  simp only [processFields] at h
  split at h
  · exact parseStage_ne_crash _ _ _ _ _ h
  · exact Outcome.noConfusion h

lemma processRecord_safe_ne_crash (score : String → ℚ) (a : JVal)
    (h : isSafe a = true) : processRecord score a ≠ Outcome.crash := by
  cases a <;> simp [isSafe] at h
  case obj fs =>
    rw [processRecord_obj]
    cases hl : fs.lookup "source" with
    | none =>
      simp only [dictGet, hl]
      exact processFields_ne_crash _ _ _
    | some v =>
      cases v <;> rw [hl] at h <;> simp [okSourceType] at h
      case obj sfs =>
        simp only [dictGet, hl]
        exact processFields_ne_crash _ _ _

lemma parseStage_str (score : String → ℚ) (fs sfs : List (String × JVal))
    (title : JVal) (s : String) :
    parseStage score fs sfs title (JVal.str s) =
      match parseTimestamp s with
      | some dt => buildStage score fs sfs title dt
      | none => Outcome.skipWarn := rfl

lemma buildStage_ok_eval (score : String → ℚ) (fs sfs : List (String × JVal))
    (t : String) (dt : PyDateTime) (d : String)
    (hd : noneToEmpty (dictGet fs "description" (JVal.str "")) = JVal.str d) :
    buildStage score fs sfs (JVal.str t) dt =
      Outcome.ok ⟨t, d, dt, score (t ++ " " ++ d),
        get_sentiment_label (score (t ++ " " ++ d)),
        dictGet sfs "name" (JVal.str "Unknown"),
        noneToEmpty (dictGet fs "url" (JVal.str ""))⟩ := by
  unfold buildStage
  rw [hd]

lemma buildStage_ok_inv {score : String → ℚ} {fs sfs : List (String × JVal)}
    {title : JVal} {dt : PyDateTime} {p : Processed}
    (h : buildStage score fs sfs title dt = Outcome.ok p) :
    ∃ t d, title = JVal.str t ∧
      noneToEmpty (dictGet fs "description" (JVal.str "")) = JVal.str d ∧
      p = ⟨t, d, dt, score (t ++ " " ++ d),
        get_sentiment_label (score (t ++ " " ++ d)),
        dictGet sfs "name" (JVal.str "Unknown"),
        noneToEmpty (dictGet fs "url" (JVal.str ""))⟩ := by
  unfold buildStage at h
  split at h
  next _ _ t d heq =>
    exact ⟨t, d, rfl, heq, (Outcome.ok.inj h).symm⟩
  next =>
    exact absurd h (by intro hh; exact Outcome.noConfusion hh)

lemma processRecord_good_eval (score : String → ℚ)
    (fs sfs : List (String × JVal)) (t s : String) (dt : PyDateTime) (d : String)
    (hsrc : dictGet fs "source" (JVal.obj []) = JVal.obj sfs)
    (ht : dictGet fs "title" JVal.null = JVal.str t) (htne : t ≠ "")
    (hs : dictGet fs "publishedAt" JVal.null = JVal.str s)
    (hp : parseTimestamp s = some dt)
    (hd : noneToEmpty (dictGet fs "description" (JVal.str "")) = JVal.str d) :
    processRecord score (JVal.obj fs) =
      Outcome.ok ⟨t, d, dt, score (t ++ " " ++ d),
        get_sentiment_label (score (t ++ " " ++ d)),
        dictGet sfs "name" (JVal.str "Unknown"),
        noneToEmpty (dictGet fs "url" (JVal.str ""))⟩ := by
  have hsne : s ≠ "" := parseTimestamp_ne_empty hp
  rw [processRecord_obj, hsrc]
  simp only [processFields, ht, hs, truthy_str htne, truthy_str hsne,
    Bool.and_self, if_true]
  rw [parseStage_str, hp]
  exact buildStage_ok_eval score fs sfs t dt d hd

lemma processRecord_ok_inv {score : String → ℚ} {a : JVal} {p : Processed}
    (h : processRecord score a = Outcome.ok p) :
    ∃ fs sfs t s,
      a = JVal.obj fs ∧
      dictGet fs "source" (JVal.obj []) = JVal.obj sfs ∧
      dictGet fs "title" JVal.null = JVal.str t ∧ t ≠ "" ∧
      dictGet fs "publishedAt" JVal.null = JVal.str s ∧
      parseTimestamp s = some p.date ∧
      p.title = t ∧
      p.source = dictGet sfs "name" (JVal.str "Unknown") ∧
      p.polarity = score (t ++ " " ++ p.description) ∧
      JVal.str p.description = noneToEmpty (dictGet fs "description" (JVal.str "")) ∧
      p.source_url = noneToEmpty (dictGet fs "url" (JVal.str "")) := by
  cases a with
  | obj fs =>
    rw [processRecord_obj] at h
    split at h
    next sfs hsrc =>
      simp only [processFields] at h
      split at h
      next hcond =>
        rw [Bool.and_eq_true] at hcond
        unfold parseStage at h
        split at h
        next s hds =>
          split at h
          next dt hp =>
            obtain ⟨t, d, htit, hdesc, hpeq⟩ := buildStage_ok_inv h
            refine ⟨fs, sfs, t, s, rfl, hsrc, ?_, ?_, hds, ?_, ?_, ?_, ?_, ?_, ?_⟩
            · rw [← htit]
            · exact str_of_truthy (htit ▸ hcond.1)
            · rw [hpeq]
              exact hp
            · rw [hpeq]
            · rw [hpeq]
            · rw [hpeq]
            · rw [hpeq, ← hdesc]
            · rw [hpeq]
          next => exact absurd h (by intro hh; exact Outcome.noConfusion hh)
        next => exact absurd h (by intro hh; exact Outcome.noConfusion hh)
      next => exact absurd h (by intro hh; exact Outcome.noConfusion hh)
    next => exact absurd h (by intro hh; exact Outcome.noConfusion hh)
  | null => exact absurd h (by intro hh; exact Outcome.noConfusion hh)
  | bool b => exact absurd h (by intro hh; exact Outcome.noConfusion hh)
  | num q => exact absurd h (by intro hh; exact Outcome.noConfusion hh)
  | str s => exact absurd h (by intro hh; exact Outcome.noConfusion hh)
  | arr xs => exact absurd h (by intro hh; exact Outcome.noConfusion hh)

lemma dictGet_none {fs : List (String × JVal)} {k : String} {d : JVal}
    (h : fs.lookup k = none) : dictGet fs k d = d := by
  simp [dictGet, h]

lemma dictGet_some {fs : List (String × JVal)} {k : String} {d v : JVal}
    (h : fs.lookup k = some v) : dictGet fs k d = v := by
  simp [dictGet, h]

lemma lookup_of_dictGet_str {fs : List (String × JVal)} {k : String} {s : String}
    (h : dictGet fs k JVal.null = JVal.str s) :
    fs.lookup k = some (JVal.str s) := by
  cases hl : fs.lookup k with
  | none => rw [dictGet_none hl] at h; exact absurd h (by simp)
  | some v => rw [dictGet_some hl] at h; rw [h]

lemma processRecord_eq_processFields {score : String → ℚ}
    {fs sfs : List (String × JVal)}
    (hsfs : dictGet fs "source" (JVal.obj []) = JVal.obj sfs) :
    processRecord score (JVal.obj fs) = processFields score fs sfs := by
  rw [processRecord_obj, hsfs]

lemma source_dict_of_okSourceType {fs : List (String × JVal)}
    (h : okSourceType (fs.lookup "source") = true) :
    ∃ sfs, dictGet fs "source" (JVal.obj []) = JVal.obj sfs := by
  cases hl : fs.lookup "source" with
  | none => exact ⟨[], dictGet_none hl⟩
  | some v =>
    cases v with
    | obj g => exact ⟨g, dictGet_some hl⟩
    | null => rw [hl] at h; exact absurd h (by simp [okSourceType])
    | bool b => rw [hl] at h; exact absurd h (by simp [okSourceType])
    | num q => rw [hl] at h; exact absurd h (by simp [okSourceType])
    | str s => rw [hl] at h; exact absurd h (by simp [okSourceType])
    | arr xs => rw [hl] at h; exact absurd h (by simp [okSourceType])

lemma desc_str_of_okFieldType {fs : List (String × JVal)}
    (h : okFieldType (fs.lookup "description") = true) :
    ∃ d, noneToEmpty (dictGet fs "description" (JVal.str "")) = JVal.str d := by
  cases hl : fs.lookup "description" with
  | none => exact ⟨"", by rw [dictGet_none hl]; rfl⟩
  | some v =>
    cases v with
    | null => exact ⟨"", by rw [dictGet_some hl]; rfl⟩
    | str s => exact ⟨s, by rw [dictGet_some hl]; rfl⟩
    | bool b => rw [hl] at h; exact absurd h (by simp [okFieldType])
    | num q => rw [hl] at h; exact absurd h (by simp [okFieldType])
    | arr xs => rw [hl] at h; exact absurd h (by simp [okFieldType])
    | obj g => rw [hl] at h; exact absurd h (by simp [okFieldType])

lemma title_str_of_not_missing {o : Option JVal}
    (hok : okFieldType o = true) (hm : titleMissing o = false) :
    ∃ t, o = some (JVal.str t) ∧ t ≠ "" := by
  cases o with
  | none => exact absurd hm (by simp [titleMissing])
  | some v =>
    cases v with
    | null => exact absurd hm (by simp [titleMissing])
    | str s =>
      refine ⟨s, rfl, ?_⟩
      intro he
      subst he
      exact absurd hm (by simp [titleMissing])
    | bool b => exact absurd hok (by simp [okFieldType])
    | num q => exact absurd hok (by simp [okFieldType])
    | arr xs => exact absurd hok (by simp [okFieldType])
    | obj g => exact absurd hok (by simp [okFieldType])

lemma date_parsed_of_not_bad {o : Option JVal} (hbad : dateBad o = false) :
    ∃ s dt, o = some (JVal.str s) ∧ parseTimestamp s = some dt := by
  cases o with
  | none => exact absurd hbad (by simp [dateBad])
  | some v =>
    cases v with
    | str s =>
      simp only [dateBad] at hbad
      cases hp : parseTimestamp s with
      | none => rw [hp] at hbad; exact absurd hbad (by simp)
      | some dt => exact ⟨s, dt, rfl, hp⟩
    | null => exact absurd hbad (by simp [dateBad])
    | bool b => exact absurd hbad (by simp [dateBad])
    | num q => exact absurd hbad (by simp [dateBad])
    | arr xs => exact absurd hbad (by simp [dateBad])
    | obj g => exact absurd hbad (by simp [dateBad])

lemma processFields_skipSilent_title (score : String → ℚ)
    (fs sfs : List (String × JVal))
    (h : truthy (dictGet fs "title" JVal.null) = false) :
    processFields score fs sfs = Outcome.skipSilent := by
  simp [processFields, h]

lemma processFields_skipSilent_date (score : String → ℚ)
    (fs sfs : List (String × JVal))
    (h : truthy (dictGet fs "publishedAt" JVal.null) = false) :
    processFields score fs sfs = Outcome.skipSilent := by
  simp [processFields, h]

lemma processFields_badParse (score : String → ℚ) (fs sfs : List (String × JVal))
    (t s : String)
    (ht : dictGet fs "title" JVal.null = JVal.str t) (htne : t ≠ "")
    (hs : dictGet fs "publishedAt" JVal.null = JVal.str s) (hsne : s ≠ "")
    (hp : parseTimestamp s = none) :
    processFields score fs sfs = Outcome.skipWarn := by
  simp only [processFields, ht, hs, truthy_str htne, truthy_str hsne,
    Bool.and_self, if_true]
  rw [parseStage_str, hp]

lemma titleMissing_falsy {fs : List (String × JVal)}
    (hok : okFieldType (fs.lookup "title") = true)
    (hm : titleMissing (fs.lookup "title") = true) :
    truthy (dictGet fs "title" JVal.null) = false := by
  cases hl : fs.lookup "title" with
  | none => rw [dictGet_none hl]; rfl
  | some v =>
    cases v with
    | null => rw [dictGet_some hl]; rfl
    | str s =>
      rw [dictGet_some hl]
      rw [hl] at hm
      by_cases hse : s = ""
      · subst hse; rfl
      · exact absurd hm (by simp [titleMissing, hse])
    | bool b => rw [hl] at hok; exact absurd hok (by simp [okFieldType])
    | num q => rw [hl] at hok; exact absurd hok (by simp [okFieldType])
    | arr xs => rw [hl] at hok; exact absurd hok (by simp [okFieldType])
    | obj g => rw [hl] at hok; exact absurd hok (by simp [okFieldType])

lemma wellTyped_obj {fs : List (String × JVal)} (hw : wellTyped (JVal.obj fs) = true) :
    okFieldType (fs.lookup "title") = true ∧
    okFieldType (fs.lookup "publishedAt") = true ∧
    okFieldType (fs.lookup "description") = true ∧
    okSourceType (fs.lookup "source") = true := by
  simp only [wellTyped, Bool.and_eq_true] at hw
  exact ⟨hw.1.1.1, hw.1.1.2, hw.1.2, hw.2⟩

lemma processRecord_wellTyped_discarded (score : String → ℚ) (a : JVal)
    (hw : wellTyped a = true) (hd : discardedByClaim a = true) :
    processRecord score a = Outcome.skipSilent ∨
      processRecord score a = Outcome.skipWarn := by
  cases a with
  | null => simp [wellTyped] at hw
  | bool b => simp [wellTyped] at hw
  | num q => simp [wellTyped] at hw
  | str s => simp [wellTyped] at hw
  | arr xs => simp [wellTyped] at hw
  | obj fs =>
  obtain ⟨hwt, hwd, hwdesc, hwsrc⟩ := wellTyped_obj hw
  obtain ⟨sfs, hsfs⟩ := source_dict_of_okSourceType hwsrc
  rw [processRecord_eq_processFields hsfs]
  by_cases hTmiss : titleMissing (fs.lookup "title") = true
  · exact Or.inl (processFields_skipSilent_title score fs sfs
      (titleMissing_falsy hwt hTmiss))
  · have hDbad : dateBad (fs.lookup "publishedAt") = true := by
      simp only [discardedByClaim, Bool.or_eq_true] at hd
      rcases hd with hd | hd
      · exact absurd hd hTmiss
      · exact hd
    obtain ⟨t, hlt, htne⟩ := title_str_of_not_missing hwt
      (Bool.not_eq_true _ ▸ (by simpa using hTmiss))
    cases hld : fs.lookup "publishedAt" with
    | none =>
      exact Or.inl (processFields_skipSilent_date score fs sfs
        (by rw [dictGet_none hld]; rfl))
    | some v =>
      cases v with
      | null =>
        exact Or.inl (processFields_skipSilent_date score fs sfs
          (by rw [dictGet_some hld]; rfl))
      | str s =>
        by_cases hse : s = ""
        · subst hse
          exact Or.inl (processFields_skipSilent_date score fs sfs
            (by rw [dictGet_some hld]; rfl))
        · have hp : parseTimestamp s = none := by
            rw [hld] at hDbad
            simp only [dateBad, Option.isNone_iff_eq_none] at hDbad
            exact hDbad
          exact Or.inr (processFields_badParse score fs sfs t s
            (dictGet_some hlt) htne (dictGet_some hld) hse hp)
      | bool b => rw [hld] at hwd; exact absurd hwd (by simp [okFieldType])
      | num q => rw [hld] at hwd; exact absurd hwd (by simp [okFieldType])
      | arr xs => rw [hld] at hwd; exact absurd hwd (by simp [okFieldType])
      | obj g => rw [hld] at hwd; exact absurd hwd (by simp [okFieldType])

lemma processRecord_wellTyped_kept (score : String → ℚ) (a : JVal)
    (hw : wellTyped a = true) (hd : discardedByClaim a = false) :
    ∃ p, processRecord score a = Outcome.ok p := by
  cases a with
  | null => simp [wellTyped] at hw
  | bool b => simp [wellTyped] at hw
  | num q => simp [wellTyped] at hw
  | str s => simp [wellTyped] at hw
  | arr xs => simp [wellTyped] at hw
  | obj fs =>
  obtain ⟨hwt, hwd, hwdesc, hwsrc⟩ := wellTyped_obj hw
  obtain ⟨sfs, hsfs⟩ := source_dict_of_okSourceType hwsrc
  simp only [discardedByClaim, Bool.or_eq_false_iff] at hd
  obtain ⟨t, hlt, htne⟩ := title_str_of_not_missing hwt hd.1
  obtain ⟨s, dt, hls, hp⟩ := date_parsed_of_not_bad hd.2
  obtain ⟨d, hdesc⟩ := desc_str_of_okFieldType hwdesc
  exact ⟨_, processRecord_good_eval score fs sfs t s dt d hsfs
    (dictGet_some hlt) htne (dictGet_some hls) hp hdesc⟩

lemma process_articles_cons (score : String → ℚ) (a : JVal) (rest : List JVal) :
    process_articles score (a :: rest) =
      match processRecord score a with
      | .ok p =>
        match process_articles score rest with
        | .ok out => .ok (p :: out)
        | .error e => .error e
      | .skipSilent => process_articles score rest
      | .skipWarn => process_articles score rest
      | .crash => .error .attributeError := rfl

lemma process_articles_cons_ok {score : String → ℚ} {a : JVal}
    {rest : List JVal} {p : Processed} (hr : processRecord score a = .ok p) :
    process_articles score (a :: rest) =
      match process_articles score rest with
      | .ok out => .ok (p :: out)
      | .error e => .error e := by
  rw [process_articles_cons, hr]

lemma process_articles_cons_skipSilent {score : String → ℚ} {a : JVal}
    {rest : List JVal} (hr : processRecord score a = .skipSilent) :
    process_articles score (a :: rest) = process_articles score rest := by
  rw [process_articles_cons, hr]

lemma process_articles_cons_skipWarn {score : String → ℚ} {a : JVal}
    {rest : List JVal} (hr : processRecord score a = .skipWarn) :
    process_articles score (a :: rest) = process_articles score rest := by
  rw [process_articles_cons, hr]

lemma process_articles_cons_crash {score : String → ℚ} {a : JVal}
    {rest : List JVal} (hr : processRecord score a = .crash) :
    process_articles score (a :: rest) = .error .attributeError := by
  rw [process_articles_cons, hr]

/- ------------------------------------------------------------------ -/
/- Claim theorems.                                                     -/
/- ------------------------------------------------------------------ -/

/-- Claim C1: for every polarity score p, `get_sentiment_label` returns
    the positive label iff p > 0.1, the negative label iff p < -0.1, and
    the neutral label iff p lies in the closed interval from -0.1 to 0.1;
    the comparisons are exact, with no rounding. -/
theorem C1_sentiment_thresholds (p : ℚ) :
    (get_sentiment_label p = "😊 Positive" ↔ 1/10 < p) ∧
    (get_sentiment_label p = "😠 Negative" ↔ p < -(1/10)) ∧
    (get_sentiment_label p = "😐 Neutral" ↔ -(1/10) ≤ p ∧ p ≤ 1/10) := by
  unfold get_sentiment_label
  split_ifs with h1 h2
  · refine ⟨iff_of_true rfl h1, iff_of_false (by decide) ?_,
      iff_of_false (by decide) ?_⟩
    · intro hn
      linarith
    · intro hn
      rcases hn with ⟨hn1, hn2⟩
      linarith
  · refine ⟨iff_of_false (by decide) h1, iff_of_true rfl h2,
      iff_of_false (by decide) ?_⟩
    · intro hn
      rcases hn with ⟨hn1, hn2⟩
      linarith
  · refine ⟨iff_of_false (by decide) h1, iff_of_false (by decide) h2,
      iff_of_true rfl ⟨?_, ?_⟩⟩
    · linarith [not_lt.mp h2]
    · linarith [not_lt.mp h1]

/-- Witness for C1 at the concrete score one half. -/
theorem C1_sentiment_thresholds_witness :
    get_sentiment_label (1/2) = "😊 Positive" :=
  ((C1_sentiment_thresholds (1/2)).1).mpr (by norm_num)

/-- Counterexample to claim C2 as stated: on an input list containing a
    non-mapping element, `process_articles` raises an uncaught
    `AttributeError` (from `None.get` at line 77) past the pipeline
    boundary instead of returning a list. -/
theorem C2_counterexample :
    process_articles zeroScore [JVal.null] =
      Except.error PyErr.attributeError := rfl

/-- Claim C2 as amended: for input lists whose elements are all mappings
    in which the `source` field, when present, is itself a mapping,
    `process_articles` returns a list normally, each record contributing
    independently (per-record failures drop only that record, and
    processing continues with the next one). -/
theorem C2_amended_local_recovery (score : String → ℚ) (arts : List JVal)
    (h : ∀ a ∈ arts, isSafe a = true) :
    process_articles score arts =
      Except.ok (arts.filterMap
        (fun a => Outcome.toOption (processRecord score a))) := by
  induction arts with
  | nil => rfl
  | cons a rest ih =>
    have hrest := ih (fun b hb => h b (List.mem_cons_of_mem a hb))
    have hsafe := h a (List.mem_cons_self a rest)
    rw [process_articles_cons]
    cases hout : processRecord score a with
    | ok p => rw [hrest]; simp [List.filterMap_cons, Outcome.toOption, hout]
    | skipSilent => rw [hrest]; simp [List.filterMap_cons, Outcome.toOption, hout]
    | skipWarn => rw [hrest]; simp [List.filterMap_cons, Outcome.toOption, hout]
    | crash => exact absurd hout (processRecord_safe_ne_crash score a hsafe)

/-- Witness for the amended C2 at a concrete safe input. -/
theorem C2_amended_local_recovery_witness :
    process_articles zeroScore [JVal.obj []] =
      Except.ok (List.filterMap
        (fun a => Outcome.toOption (processRecord zeroScore a))
        [JVal.obj []]) :=
  C2_amended_local_recovery zeroScore [JVal.obj []] (by
    intro a ha
    rw [List.mem_singleton] at ha
    subst ha
    rfl)

/-- Claim C3: with zero processed articles the metrics would indeed show
    an average of 0.0 and a count of 0, but the run does not complete:
    selecting the display columns from the empty frame at line 159 raises
    an uncaught `KeyError`, so the dashboard crashes instead of rendering
    the empty-state listings. -/
theorem C3_empty_set_crashes :
    avgMetric [] = 0 ∧ ([] : List Processed).length = 0 ∧
    renderDashboard [] ⟨2026, 10, 12⟩ = Except.error PyErr.keyError :=
  ⟨rfl, rfl, rfl⟩

/-- Counterexample to claim C4 as stated: `artC4` is missing neither
    title nor timestamp and its timestamp parses, yet it is dropped (its
    numeric description makes the line-98 concatenation raise a caught
    `TypeError`), so the output length 0 differs from input length minus
    the count of records in the claim's discard set. -/
theorem C4_counterexample :
    discardedByClaim artC4 = false ∧
    process_articles zeroScore [artC4] = Except.ok [] ∧
    ([] : List Processed).length ≠
      [artC4].length - List.countP discardedByClaim [artC4] := by
  refine ⟨rfl, rfl, by decide⟩

/-- Claim C4 as amended: for input lists of well-typed records (title,
    publishedAt and description absent, null or strings; source absent or
    a mapping), the output length equals the input length minus exactly
    the number of records with a missing/empty title or a
    missing/unparseable timestamp. -/
theorem C4_amended_dropped_count (score : String → ℚ) (arts : List JVal)
    (h : ∀ a ∈ arts, wellTyped a = true) :
    ∃ out, process_articles score arts = Except.ok out ∧
      out.length + List.countP discardedByClaim arts = arts.length := by
  induction arts with
  | nil => exact ⟨[], rfl, rfl⟩
  | cons a rest ih =>
    obtain ⟨out, hout, hlen⟩ := ih (fun b hb => h b (List.mem_cons_of_mem a hb))
    have hwa := h a (List.mem_cons_self a rest)
    cases hda : discardedByClaim a with
    | true =>
      rcases processRecord_wellTyped_discarded score a hwa hda with hr | hr
      · refine ⟨out, ?_, ?_⟩
        · rw [process_articles_cons_skipSilent hr]
          exact hout
        · simp only [List.countP_cons, hda, List.length_cons, if_true]
          omega
      · refine ⟨out, ?_, ?_⟩
        · rw [process_articles_cons_skipWarn hr]
          exact hout
        · simp only [List.countP_cons, hda, List.length_cons, if_true]
          omega
    | false =>
      obtain ⟨p, hr⟩ := processRecord_wellTyped_kept score a hwa hda
      refine ⟨p :: out, ?_, ?_⟩
      · rw [process_articles_cons_ok hr, hout]
      · simp [List.countP_cons, hda]
        omega

/-- Witness for the amended C4: one kept record and one record dropped
    for a missing title. -/
theorem C4_amended_dropped_count_witness :
    ∃ out, process_articles zeroScore [artC4b, JVal.obj []] = Except.ok out ∧
      out.length + List.countP discardedByClaim [artC4b, JVal.obj []] =
        ([artC4b, JVal.obj []] : List JVal).length :=
  C4_amended_dropped_count zeroScore [artC4b, JVal.obj []] (by
    intro a ha
    rw [List.mem_cons, List.mem_singleton] at ha
    rcases ha with rfl | rfl
    · rfl
    · rfl)

/-- Claim C5: every article in a successfully returned output of
    `process_articles` has a non-empty title and a date parsed from the
    `publishedAt` string of one of the input records. -/
theorem C5_output_invariant (score : String → ℚ) (arts : List JVal) :
    ∀ out, process_articles score arts = Except.ok out →
      ∀ p ∈ out, p.title ≠ "" ∧
        ∃ a ∈ arts, ∃ fs s, a = JVal.obj fs ∧
          fs.lookup "publishedAt" = some (JVal.str s) ∧
          parseTimestamp s = some p.date := by
  induction arts with
  | nil =>
    intro out h p hp
    obtain rfl : ([] : List Processed) = out := Except.ok.inj h
    exact absurd hp (List.not_mem_nil p)
  | cons a rest ih =>
    intro out h p hp
    cases hr : processRecord score a with
    | ok p0 =>
      rw [process_articles_cons_ok hr] at h
      split at h
      next outr hrest =>
        obtain rfl : p0 :: outr = out := Except.ok.inj h
        rcases List.mem_cons.mp hp with rfl | hp2
        · obtain ⟨fs, sfs, t, s, rfl, hsrc, ht, htne, hs, hparse, htitle,
            hsour, hpol, hdesc, hurl⟩ := processRecord_ok_inv hr
          refine ⟨?_, JVal.obj fs, List.mem_cons_self _ _, fs, s, rfl,
            lookup_of_dictGet_str hs, hparse⟩
          rw [htitle]
          exact htne
        · obtain ⟨hti, a', ha', fs', s', haeq, hlk, hp'⟩ :=
            ih outr hrest p hp2
          exact ⟨hti, a', List.mem_cons_of_mem a ha', fs', s', haeq, hlk, hp'⟩
      next e hrest => exact Except.noConfusion h
    | skipSilent =>
      rw [process_articles_cons_skipSilent hr] at h
      obtain ⟨hti, a', ha', fs', s', haeq, hlk, hp'⟩ := ih out h p hp
      exact ⟨hti, a', List.mem_cons_of_mem a ha', fs', s', haeq, hlk, hp'⟩
    | skipWarn =>
      rw [process_articles_cons_skipWarn hr] at h
      obtain ⟨hti, a', ha', fs', s', haeq, hlk, hp'⟩ := ih out h p hp
      exact ⟨hti, a', List.mem_cons_of_mem a ha', fs', s', haeq, hlk, hp'⟩
    | crash =>
      rw [process_articles_cons_crash hr] at h
      exact Except.noConfusion h

/-- Witness for C5 at a concrete successful run. -/
theorem C5_output_invariant_witness :
    ∃ out, process_articles zeroScore [artC4b] = Except.ok out ∧
      ∀ p ∈ out, p.title ≠ "" := by
  refine ⟨[⟨"Good", "", ⟨2024, 3, 5, 10, 0, 0⟩, 0, "😐 Neutral",
    JVal.str "Unknown", JVal.str ""⟩], by with_unfolding_all rfl, ?_⟩
  intro p hp
  exact (C5_output_invariant zeroScore [artC4b] _
    (by with_unfolding_all rfl) p hp).1

/-- Claim C6: the today bucket holds exactly the articles dated today,
    the week bucket exactly those between the most recent Monday on or
    before today and today (inclusive), the all-time bucket is the whole
    processed set, and the buckets overlap (a today article is also a
    week and an all-time article). -/
theorem C6_date_buckets (parsed : List Processed) (today : PyDate)
    (h : 1 ≤ toOrdinal today) :
    (∀ a, a ∈ today_articles parsed today ↔
      a ∈ parsed ∧ dateOf a.date = today) ∧
    (∀ a, a ∈ week_articles parsed today ↔ a ∈ parsed ∧
      startOfWeekOrd today ≤ toOrdinal (dateOf a.date) ∧
      toOrdinal (dateOf a.date) ≤ toOrdinal today) ∧
    (weekdayOfOrd (startOfWeekOrd today) = 0 ∧
      startOfWeekOrd today ≤ toOrdinal today ∧
      (∀ m, weekdayOfOrd m = 0 → m ≤ toOrdinal today →
        m ≤ startOfWeekOrd today)) ∧
    all_articles parsed = parsed ∧
    (∀ a, a ∈ today_articles parsed today →
      a ∈ week_articles parsed today ∧ a ∈ all_articles parsed) := by
  have hmem1 : ∀ a, a ∈ today_articles parsed today ↔
      a ∈ parsed ∧ dateOf a.date = today := by
    intro a
    simp [today_articles, List.mem_filter]
  have hmem2 : ∀ a, a ∈ week_articles parsed today ↔ a ∈ parsed ∧
      startOfWeekOrd today ≤ toOrdinal (dateOf a.date) ∧
      toOrdinal (dateOf a.date) ≤ toOrdinal today := by
    intro a
    simp [week_articles, List.mem_filter]
  have hsowle : startOfWeekOrd today ≤ toOrdinal today := by
    simp only [startOfWeekOrd]
    omega
  have hsow0 : weekdayOfOrd (startOfWeekOrd today) = 0 := by
    simp only [startOfWeekOrd, weekdayOfOrd]
    omega
  have hmax : ∀ m, weekdayOfOrd m = 0 → m ≤ toOrdinal today →
      m ≤ startOfWeekOrd today := by
    intro m hm hle
    simp only [weekdayOfOrd] at hm
    simp only [startOfWeekOrd, weekdayOfOrd]
    omega
  refine ⟨hmem1, hmem2, ⟨hsow0, hsowle, hmax⟩, rfl, ?_⟩
  intro a ha
  obtain ⟨hp, hdate⟩ := (hmem1 a).mp ha
  refine ⟨(hmem2 a).mpr ⟨hp, ?_, ?_⟩, hp⟩
  · rw [hdate]
    exact hsowle
  · rw [hdate]

/-- Witness for C6 at a concrete article and date. -/
theorem C6_date_buckets_witness :
    artC6 ∈ week_articles [artC6] dayC6 ∧ all_articles [artC6] = [artC6] := by
  have hm := C6_date_buckets [artC6] dayC6 (by decide)
  have ht : artC6 ∈ today_articles [artC6] dayC6 :=
    (hm.1 artC6).mpr ⟨List.mem_singleton.mpr rfl, rfl⟩
  exact ⟨(hm.2.2.2.2 artC6 ht).1, hm.2.2.2.1⟩

/-- Claim C7: for every query and count, the fetch returns the provider's
    article list on an HTTP 200 status, and on any other status shows a
    user-visible error and returns the empty list; the result is a list
    in all cases, with no retry modelled anywhere. -/
theorem C7_fetch_status (query : String) (limit : ℕ)
    (resp : ProviderResponse) :
    (resp.status = 200 →
      fetch_articles query limit resp = (false, resp.articles.getD [])) ∧
    (resp.status ≠ 200 → fetch_articles query limit resp = (true, [])) := by
  constructor
  · intro h
    simp [fetch_articles, h]
  · intro h
    simp [fetch_articles, h]

/-- Witness for C7 at a success and at a failure status. -/
theorem C7_fetch_status_witness :
    fetch_articles "ai" 25 ⟨200, some [JVal.str "a"]⟩ = (false, [JVal.str "a"]) ∧
    fetch_articles "ai" 25 ⟨500, none⟩ = (true, []) :=
  ⟨(C7_fetch_status "ai" 25 ⟨200, some [JVal.str "a"]⟩).1 rfl,
   (C7_fetch_status "ai" 25 ⟨500, none⟩).2 (by decide)⟩

/-- Counterexample to claim C9 as stated: for the singleton set holding
    `artC9` (polarity 0.111) the metric value is the rounded 0.11, not the
    exact mean 0.111. -/
theorem C9_counterexample :
    avgMetric [artC9] = 11/100 ∧
    mean (List.map Processed.polarity [artC9]) = 111/1000 ∧
    (11 : ℚ)/100 ≠ 111/1000 := by
  refine ⟨by with_unfolding_all rfl, by with_unfolding_all rfl, by norm_num⟩

/-- Claim C9 as amended: for every non-empty processed set the metric
    value equals the arithmetic mean of the polarities rounded to two
    decimal places (half to even), and it is 0.0 for the empty set. -/
theorem C9_amended_rounded_mean (parsed : List Processed) :
    (parsed ≠ [] →
      avgMetric parsed = round2 (mean (parsed.map Processed.polarity))) ∧
    avgMetric [] = 0 := by
  refine ⟨?_, rfl⟩
  intro h
  have hne : parsed.isEmpty = false := by
    cases parsed with
    | nil => exact absurd rfl h
    | cons x xs => rfl
  simp [avgMetric, hne]

/-- Witness for the amended C9 at the concrete singleton set. -/
theorem C9_amended_rounded_mean_witness :
    avgMetric [artC9] = round2 (mean (List.map Processed.polarity [artC9])) :=
  (C9_amended_rounded_mean [artC9]).1 (by simp)

/-- Counterexample to claim C8 as stated: `artC8` is well-formed in the
    claim's sense (non-empty title, parseable timestamp), yet no
    normalized record with defaulted fields exists: its null `source`
    value makes line 80 raise an uncaught `AttributeError` that crashes
    the whole run. -/
theorem C8_counterexample :
    (∃ fs, artC8 = JVal.obj fs ∧
      fs.lookup "title" = some (JVal.str "A") ∧
      fs.lookup "publishedAt" = some (JVal.str "2024-01-01T00:00:00Z")) ∧
    parseTimestamp "2024-01-01T00:00:00Z" = some ⟨2024, 1, 1, 0, 0, 0⟩ ∧
    process_articles zeroScore [artC8] = Except.error PyErr.attributeError :=
  ⟨⟨_, rfl, rfl, rfl⟩, rfl, rfl⟩

/-- Claim C8 as amended: for a mapping record with a non-empty string
    title, a parseable string timestamp, a description that is absent,
    null or a string, and a source that is absent or a mapping, the
    normalizer produces a record whose description defaults to the empty
    string when the raw field is absent or null, whose URL defaults to
    the empty string when absent or null, whose source name defaults to
    "Unknown" when the source key is absent or the source mapping lacks a
    name, and whose polarity is the score of title, a space, and the
    normalized description. -/
theorem C8_amended_defaults (score : String → ℚ) (fs : List (String × JVal))
    (t s : String) (dt : PyDateTime)
    (ht : fs.lookup "title" = some (JVal.str t)) (htne : t ≠ "")
    (hs : fs.lookup "publishedAt" = some (JVal.str s))
    (hp : parseTimestamp s = some dt)
    (hdesc : okFieldType (fs.lookup "description") = true)
    (hsrc : okSourceType (fs.lookup "source") = true) :
    ∃ p, processRecord score (JVal.obj fs) = Outcome.ok p ∧
      ((fs.lookup "description" = none ∨
        fs.lookup "description" = some JVal.null) → p.description = "") ∧
      ((fs.lookup "url" = none ∨ fs.lookup "url" = some JVal.null) →
        p.source_url = JVal.str "") ∧
      (fs.lookup "source" = none → p.source = JVal.str "Unknown") ∧
      (∀ g, fs.lookup "source" = some (JVal.obj g) →
        g.lookup "name" = none → p.source = JVal.str "Unknown") ∧
      p.polarity = score (t ++ " " ++ p.description) := by
  obtain ⟨sfs, hsfs⟩ := source_dict_of_okSourceType hsrc
  obtain ⟨d, hd⟩ := desc_str_of_okFieldType hdesc
  refine ⟨_, processRecord_good_eval score fs sfs t s dt d hsfs
    (dictGet_some ht) htne (dictGet_some hs) hp hd, ?_, ?_, ?_, ?_, ?_⟩
  · intro hcase
    show d = ""
    rcases hcase with hnone | hnull
    · rw [dictGet_none hnone] at hd
      simpa [noneToEmpty] using hd.symm
    · rw [dictGet_some hnull] at hd
      simpa [noneToEmpty] using hd.symm
  · intro hcase
    show noneToEmpty (dictGet fs "url" (JVal.str "")) = JVal.str ""
    rcases hcase with hnone | hnull
    · rw [dictGet_none hnone]
      rfl
    · rw [dictGet_some hnull]
      rfl
  · intro hnone
    show dictGet sfs "name" (JVal.str "Unknown") = JVal.str "Unknown"
    rw [dictGet_none hnone] at hsfs
    obtain rfl : ([] : List (String × JVal)) = sfs := JVal.obj.inj hsfs
    rfl
  · intro g hg hname
    show dictGet sfs "name" (JVal.str "Unknown") = JVal.str "Unknown"
    rw [dictGet_some hg] at hsfs
    obtain rfl : g = sfs := JVal.obj.inj hsfs
    exact dictGet_none hname
  · rfl

/-- Witness for the amended C8 at the spec's well-formed example record. -/
theorem C8_amended_defaults_witness :
    ∃ p, processRecord zeroScore (JVal.obj artC8w) = Outcome.ok p ∧
      p.description = "" ∧ p.source_url = JVal.str "" ∧
      p.source = JVal.str "Unknown" := by
  obtain ⟨p, hok, hdesc, hurl, hsrc, _, _⟩ :=
    C8_amended_defaults zeroScore artC8w "A" "2024-01-01T00:00:00Z"
      ⟨2024, 1, 1, 0, 0, 0⟩ rfl (by decide) rfl rfl rfl rfl
  exact ⟨p, hok, hdesc (Or.inr rfl), hurl (Or.inl rfl), hsrc rfl⟩

/-- Counterexample to claim C10 as stated: a record whose `source` key
    maps to null is not discarded with a caught `TypeError` warning; the
    lookup raises an uncaught `AttributeError` and the whole call
    aborts. -/
theorem C10_counterexample :
    processRecord zeroScore artC10 = Outcome.crash ∧
    process_articles zeroScore [artC10] = Except.error PyErr.attributeError :=
  ⟨rfl, rfl⟩

/-- Claim C10 as amended: a present-but-null `source` raises an uncaught
    `AttributeError` that aborts the whole run (the except clause catches
    only KeyError, ValueError and TypeError), and the "Unknown" default
    applies when the `source` key is absent, and also when the source
    mapping lacks a `name` key. -/
theorem C10_amended_source_null_crash (score : String → ℚ)
    (fs : List (String × JVal)) :
    (fs.lookup "source" = some JVal.null →
      processRecord score (JVal.obj fs) = Outcome.crash) ∧
    (fs.lookup "source" = none → ∀ p,
      processRecord score (JVal.obj fs) = Outcome.ok p →
      p.source = JVal.str "Unknown") ∧
    (∀ g, fs.lookup "source" = some (JVal.obj g) → g.lookup "name" = none →
      ∀ p, processRecord score (JVal.obj fs) = Outcome.ok p →
      p.source = JVal.str "Unknown") := by
  refine ⟨?_, ?_, ?_⟩
  · intro hnull
    rw [processRecord_obj, dictGet_some hnull]
  · intro hnone p hok
    obtain ⟨fs', sfs, t, s, heq, hsfs, _, _, _, _, _, hsource, _, _, _⟩ :=
      processRecord_ok_inv hok
    obtain rfl : fs = fs' := JVal.obj.inj heq
    rw [dictGet_none hnone] at hsfs
    obtain rfl : ([] : List (String × JVal)) = sfs := JVal.obj.inj hsfs
    rw [hsource]
    rfl
  · intro g hg hname p hok
    obtain ⟨fs', sfs, t, s, heq, hsfs, _, _, _, _, _, hsource, _, _, _⟩ :=
      processRecord_ok_inv hok
    obtain rfl : fs = fs' := JVal.obj.inj heq
    rw [dictGet_some hg] at hsfs
    obtain rfl : g = sfs := JVal.obj.inj hsfs
    rw [hsource]
    exact dictGet_none hname

/-- Witness for the amended C10: the crash conjunct at a concrete
    record. -/
theorem C10_amended_source_null_crash_witness :
    processRecord zeroScore (JVal.obj [("source", JVal.null)]) = Outcome.crash :=
  (C10_amended_source_null_crash zeroScore [("source", JVal.null)]).1 rfl
